import Mathlib

/-!
Shallow embedding of the solidbench-jena scripts (`scripts/query.py`,
`scripts/summary.py`, `scripts/namefix.py`) and proofs about the query
execution and result-recording pipeline they implement.

External effects (the HTTP exchange, the JSON parser of the standard
library, the wall clock) are passed in as explicit functions; everything
else is translated directly from the Python source. A Python expression
that can raise an uncaught exception is modelled with `Option` (`none`
standing for the raised exception), and the executor's caught failure is
modelled with `Except String`.
-/

namespace SolidbenchJena

/-- Characters stripped by Python's `str.strip()` with no argument
(the ASCII whitespace characters). -/
def pyIsSpace (c : Char) : Bool :=
  c = ' ' || c = '\t' || c = '\n' || c = '\r' || c = '\x0b' || c = '\x0c'

/-- Embedding of `str.strip()`: whitespace removed from both ends. -/
def pyStrip (s : String) : String :=
  String.mk (List.rdropWhile pyIsSpace (List.dropWhile pyIsSpace s.toList))

/-- Embedding of `str.endswith`: suffix test on the character sequences. -/
def pyEndsWith (s suf : String) : Bool :=
  suf.toList.isSuffixOf s.toList

/-- Embedding of `str.removesuffix`: drops the suffix when present. -/
def removesuffix (s suf : String) : String :=
  if pyEndsWith s suf then
    String.mk (s.toList.take (s.toList.length - suf.toList.length))
  else s

/-- Scanner for `str.split(sep)` with a non-empty separator: consume the input
left to right, cutting at each non-overlapping occurrence of the separator.
The fuel argument bounds the recursion by the input length; every step
consumes at least one character, so the fuel never runs out for the callers
(which pass the input length). -/
def pySplitGo (sep : List Char) : Nat → List Char → List Char → List (List Char)
  | _, [], acc => [acc.reverse]
  | 0, l, acc => [acc.reverse ++ l]
  | fuel + 1, c :: rest, acc =>
    if sep.isPrefixOf (c :: rest) then
      acc.reverse :: pySplitGo sep fuel ((c :: rest).drop sep.length) []
    else
      pySplitGo sep fuel rest (c :: acc)

/-- Embedding of `str.split(sep)` for a non-empty separator string. -/
def pySplit (s sep : String) : List String :=
  (pySplitGo sep.toList s.toList.length s.toList []).map String.mk

/-- Embedding of `str.join` on a sequence of strings. -/
def pyJoin (sep : String) : List String → String
  | [] => ""
  | [s] => s
  | s :: rest => s ++ sep ++ pyJoin sep rest

/-- Scanner for `str.replace(old, new)` with non-empty `old`: replace every
non-overlapping occurrence left to right. The fuel argument bounds the
recursion by the input length, as in `pySplitGo`. -/
def pyReplaceGo (old new : List Char) : Nat → List Char → List Char
  | _, [] => []
  | 0, l => l
  | fuel + 1, c :: rest =>
    if old.isPrefixOf (c :: rest) then
      new ++ pyReplaceGo old new fuel ((c :: rest).drop old.length)
    else
      c :: pyReplaceGo old new fuel rest

/-- Embedding of `str.replace(old, new)` for a non-empty `old` string. -/
def pyReplace (s old new : String) : String :=
  String.mk (pyReplaceGo old.toList new.toList s.toList.length s.toList)

/-- JSON values, as produced by parsing a response body. -/
inductive Json where
  | null : Json
  | bool : Bool → Json
  | num : Int → Json
  | str : String → Json
  | arr : List Json → Json
  | obj : List (String × Json) → Json

def SOLIDBENCH_QUERY_SEP : String := "\n\n"

def SOLIDBENCH_QUERY_EXT : String := ".sparql"

def STANDARD_QUERY_EXT : String := ".rq"

/-- The filter condition of `load_queries`: `len(query.strip()) > 0`. -/
def keep_fragment (q : String) : Bool := (pyStrip q).length > 0

/-- Embedding of the fragment extraction in `load_queries` for one template
file: split the file content on the separator, strip each fragment, and keep
only the fragments that are non-empty after stripping. -/
def load_template (content : String) : List String :=
  ((pySplit content SOLIDBENCH_QUERY_SEP).filter keep_fragment).map pyStrip

/-- Embedding of the id assignment in `load_queries` for one template file:
`f"{template_id}-{query_id + 1}"` with `query_id` ranging over the fragment
positions in order. -/
def load_file_units (template_id : String) (content : String) :
    List (String × String) :=
  ((List.range (load_template content).length).zip (load_template content)).map
    (fun p => (template_id ++ "-" ++ toString (p.1 + 1), p.2))

/-- Embedding of the Python membership test `"key" in value` on a parsed JSON
value; `none` models the TypeError raised on numbers, booleans and null. -/
def pyContains (j : Json) (key : String) : Option Bool :=
  match j with
  | .obj kvs => some (kvs.any (fun kv => kv.1 = key))
  | .arr xs => some (xs.any (fun x => match x with | .str t => t = key | _ => false))
  | .str s => some ((pySplit s key).length > 1)
  | _ => none

/-- Embedding of the Python subscript `value["key"]`; `none` models the
KeyError on a missing key and the TypeError on non-mapping values. -/
def pyIndex (j : Json) (key : String) : Option Json :=
  match j with
  | .obj kvs => (kvs.find? (fun kv => kv.1 = key)).map (fun kv => kv.2)
  | _ => none

/-- Embedding of Python `len()` on a parsed JSON value; `none` models the
TypeError on values without a length. -/
def pyLen (j : Json) : Option Nat :=
  match j with
  | .str s => some s.length
  | .arr xs => some xs.length
  | .obj kvs => some kvs.length
  | _ => none

/-- Embedding of the `results` metadata computation in `save_query_data`:
`len(result["results"]["bindings"]) if "results" in result else 0`;
`none` models an uncaught exception. -/
def countResults (result : Json) : Option Nat :=
  (pyContains result "results").bind (fun c =>
    if c then
      (pyIndex result "results").bind (fun r =>
        (pyIndex r "bindings").bind (fun b => pyLen b))
    else some 0)

/-- One persisted Run Record: the query artifact text, the result artifact
payload, and the metadata fields written by `save_query_data`. -/
structure RunRecord where
  id : String
  query : String
  result : Json
  time_seconds : Nat
  error : Option String
  success : Bool
  results : Nat

/-- Embedding of `save_query_data`: builds the Run Record for one Query Unit;
`none` models the uncaught exception raised while building the metadata
mapping (before any file is written). `err` carries `str(error)` of the
caller's exception, so truthiness of the exception becomes `Option`. -/
def save_query_data (id query : String) (result : Json) (err : Option String)
    (time : Nat) : Option RunRecord :=
  (countResults result).map (fun n =>
    { id := id, query := query, result := result, time_seconds := time,
      error := err, success := err.isNone, results := n })

/-- Embedding of the query artifact filename `f"{id}.{STANDARD_QUERY_EXT}"`. -/
def query_artifact_name (id : String) : String :=
  id ++ "." ++ STANDARD_QUERY_EXT

/-- Embedding of the result artifact filename `f"{id}.json"`. -/
def result_artifact_name (id : String) : String := id ++ ".json"

/-- Embedding of the metadata artifact filename `f"{id}-meta.json"`. -/
def metadata_artifact_name (id : String) : String := id ++ "-meta.json"

/-- The three filenames `save_query_data` writes for one Query Unit id. -/
def save_artifact_names (id : String) : List String :=
  [query_artifact_name id, result_artifact_name id, metadata_artifact_name id]

/-- Embedding of the namefix script's action on one filename:
`fp.name.replace("..", ".")`. -/
def namefix_name (name : String) : String := pyReplace name ".." "."

/-- Embedding of `execute_query`. The HTTP exchange (request, response read
and decode) is the `transport` function, returning the decoded response body
or the transport error message; `parse` models `json.loads`, with `none` for
a parse failure. A parse failure raises with the stripped response text as
the message. -/
def execute_query (transport : String → String → Except String String)
    (parse : String → Option Json) (endpoint query : String) :
    Except String Json :=
  match transport endpoint query with
  | .error e => .error e
  | .ok body =>
    let response_text := pyStrip body
    match parse response_text with
    | some j => .ok j
    | none => .error response_text

/-- Embedding of the loop of `run_queries`, carrying the position of the
current unit so that `dur i` supplies the measured duration of unit `i`.
An executor failure is caught and becomes the failed outcome with an empty
result mapping; a failure inside `save_query_data` is not caught, which
`none` models (the run aborts). -/
def run_queries_go (exec : String → Except String Json) (dur : Nat → Nat) :
    Nat → List (String × String) → Option (List RunRecord)
  | _, [] => some []
  | i, (id, query) :: rest =>
    let outcome :=
      match exec query with
      | .ok r => (r, (none : Option String))
      | .error e => (Json.obj [], some e)
    (save_query_data id query outcome.1 outcome.2 (dur i)).bind (fun record =>
      (run_queries_go exec dur (i + 1) rest).bind (fun records =>
        some (record :: records)))

/-- Embedding of `run_queries`: the units are processed in the insertion
order of the mapping. -/
def run_queries (exec : String → Except String Json) (dur : Nat → Nat)
    (queries : List (String × String)) : Option (List RunRecord) :=
  run_queries_go exec dur 0 queries

def META_SUFFIX : String := "-meta.json"

/-- Embedding of `generate_key` from the summary script; `none` models the
ValueError raised when the four-way unpacking of the dash-split id fails. -/
def generate_key (name : String) : Option String :=
  if pyEndsWith name META_SUFFIX then
    match pySplit (removesuffix name META_SUFFIX) "-" with
    | [p, qt, template, inst] =>
      let template := if template.length < 2 then "0" ++ template else template
      some (pyJoin "-" [p, qt, template, inst])
    | _ => none
  else
    some name

/-- Lexicographic comparison of character sequences by code point, as Python
compares strings. -/
def pyStrLtGo : List Char → List Char → Bool
  | [], [] => false
  | [], _ :: _ => true
  | _ :: _, [] => false
  | a :: as, b :: bs =>
    if a.toNat < b.toNat then true
    else if b.toNat < a.toNat then false
    else pyStrLtGo as bs

/-- Embedding of the Python string comparison `a < b`. -/
def pyStrLt (a b : String) : Bool := pyStrLtGo a.toList b.toList

/-- Stable insertion into a list sorted by key, placing the new pair after
the pairs with an equal key, as Python's stable sort does. -/
def insert_keyed (x : String × String) :
    List (String × String) → List (String × String)
  | [] => [x]
  | y :: ys => if pyStrLt x.1 y.1 then x :: y :: ys else y :: insert_keyed x ys

/-- Stable sort of (key, filename) pairs by string-ordered key. -/
def sort_keyed (l : List (String × String)) : List (String × String) :=
  l.foldl (fun acc x => insert_keyed x acc) []

/-- Embedding of the row selection and ordering of `generate_summary_readme`:
Python's `sorted` first computes the key of every file (`none` models a key
failure aborting the render), sorts stably by key, and the loop then keeps
the metadata artifacts and titles each row with the id. -/
def generate_summary_order (files : List String) : Option (List String) := do
  let keyed ← files.mapM (fun f => (generate_key f).map (fun k => (k, f)))
  let sorted := sort_keyed keyed
  pure (((sorted.map (fun kf => kf.2)).filter
      (fun f => pyEndsWith f META_SUFFIX)).map (fun f => removesuffix f META_SUFFIX))

theorem dropWhile_head_false {α : Type} (p : α → Bool) :
    ∀ (l : List α) (a : α) (t : List α), List.dropWhile p l = a :: t → p a = false := by
  intro l
  induction l with
  | nil => intro a t h; simp [List.dropWhile] at h
  | cons c l ih =>
    intro a t h
    rw [List.dropWhile_cons] at h
    cases hpc : p c with
    | true => simp [hpc] at h; exact ih a t h
    | false =>
      simp [hpc] at h
      obtain ⟨rfl, -⟩ := h
      exact hpc

theorem strip_core_stable (l : List Char) :
    List.dropWhile pyIsSpace (List.rdropWhile pyIsSpace (List.dropWhile pyIsSpace l))
      = List.rdropWhile pyIsSpace (List.dropWhile pyIsSpace l) := by
  rcases h : List.rdropWhile pyIsSpace (List.dropWhile pyIsSpace l) with - | ⟨a, t⟩
  · simp
  · have hpref : List.rdropWhile pyIsSpace (List.dropWhile pyIsSpace l)
        <+: List.dropWhile pyIsSpace l := List.rdropWhile_prefix _ _
    rw [h] at hpref
    obtain ⟨t2, ht2⟩ := hpref
    have hdrop : List.dropWhile pyIsSpace l = a :: (t ++ t2) := by
      rw [← ht2]; simp
    have hfa : pyIsSpace a = false :=
      dropWhile_head_false pyIsSpace l a (t ++ t2) hdrop
    rw [List.dropWhile_cons, hfa]
    simp

theorem pyStrip_idem (s : String) : pyStrip (pyStrip s) = pyStrip s := by
  show String.mk (List.rdropWhile pyIsSpace (List.dropWhile pyIsSpace
      (List.rdropWhile pyIsSpace (List.dropWhile pyIsSpace s.toList)))) = pyStrip s
  rw [strip_core_stable, List.rdropWhile_idempotent]
  rfl

theorem save_query_data_failed (id query msg : String) (t : Nat) :
    save_query_data id query (Json.obj []) (some msg) t
      = some { id := id, query := query, result := Json.obj [],
               time_seconds := t, error := some msg, success := false,
               results := 0 } := rfl

theorem obj_contains_index (kvs : List (String × Json)) (key : String) :
    pyContains (Json.obj kvs) key
      = some ((pyIndex (Json.obj kvs) key).isSome) := by
  simp only [pyContains, pyIndex, Option.isSome_map', Option.some.injEq]
  cases hfind : kvs.find? (fun kv => kv.1 = key) with
  | none =>
    rw [List.find?_eq_none] at hfind
    simp only [Option.isSome_none]
    exact List.any_eq_false.mpr hfind
  | some kv =>
    have hp := List.find?_some hfind
    have hmem := List.mem_of_find?_eq_some hfind
    simp only [Option.isSome_some]
    exact List.any_eq_true.mpr ⟨kv, hmem, hp⟩

/-- C1: an executor failure on a unit is caught; the unit is recorded with
an empty result mapping, the exception message as the error and success
false, and the remaining units are processed exactly as they otherwise
would be, in order — the failure neither aborts the run nor skips units. -/
theorem c1_failure_isolation (exec : String → Except String Json)
    (dur : Nat → Nat) (id query msg : String)
    (rest : List (String × String)) (i : Nat)
    (h : exec query = Except.error msg) :
    run_queries_go exec dur i ((id, query) :: rest)
      = (run_queries_go exec dur (i + 1) rest).map
          (fun records =>
            { id := id, query := query, result := Json.obj [],
              time_seconds := dur i, error := some msg, success := false,
              results := 0 } :: records) := by
  rcases hr : run_queries_go exec dur (i + 1) rest with - | records <;>
    simp [run_queries_go, h, save_query_data_failed, hr]

/-- Witness for C1 at a concrete run of one unit whose executor fails. -/
theorem c1_witness :
    run_queries_go (fun _ => Except.error "boom") (fun _ => 0) 0 [("a", "q")]
      = (run_queries_go (fun _ => Except.error "boom") (fun _ => 0) 1 []).map
          (fun records =>
            { id := "a", query := "q", result := Json.obj [],
              time_seconds := 0, error := some "boom", success := false,
              results := 0 } :: records) :=
  c1_failure_isolation _ _ "a" "q" "boom" [] 0 rfl

/-- C2: every Run Record produced by the run loop satisfies
success equal to (error is none), and results equal to 0 whenever the
error is not none. -/
theorem c2_metadata_invariant (exec : String → Except String Json)
    (dur : Nat → Nat) (i : Nat) (units : List (String × String))
    (records : List RunRecord)
    (h : run_queries_go exec dur i units = some records) :
    ∀ r ∈ records, (r.success = true ↔ r.error = none)
      ∧ (r.error ≠ none → r.results = 0) := by
  induction units generalizing i records with
  | nil =>
    simp only [run_queries_go, Option.some.injEq] at h
    subst h
    intro r hr
    simp at hr
  | cons unit rest ih =>
    obtain ⟨id, query⟩ := unit
    cases hexec : exec query with
    | error msg =>
      simp only [run_queries_go, hexec, save_query_data_failed,
        Option.some_bind] at h
      rcases hrest : run_queries_go exec dur (i + 1) rest with - | records'
      · rw [hrest] at h; simp at h
      · rw [hrest] at h
        simp only [Option.some_bind, Option.some.injEq] at h
        subst h
        intro r hr
        rcases List.mem_cons.mp hr with rfl | htail
        · refine ⟨by simp, fun _ => rfl⟩
        · exact ih (i + 1) records' hrest r htail
    | ok res =>
      simp only [run_queries_go, hexec] at h
      rcases hcount : countResults res with - | n
      · rw [save_query_data, hcount] at h; simp at h
      · rw [save_query_data, hcount] at h
        simp only [Option.map_some', Option.some_bind] at h
        rcases hrest : run_queries_go exec dur (i + 1) rest with - | records'
        · rw [hrest] at h; simp at h
        · rw [hrest] at h
          simp only [Option.some_bind, Option.some.injEq] at h
          subst h
          intro r hr
          rcases List.mem_cons.mp hr with rfl | htail
          · exact ⟨by simp, fun hcontra => absurd rfl hcontra⟩
          · exact ih (i + 1) records' hrest r htail

/-- Witness for C2 at a concrete run of one unit whose executor fails. -/
theorem c2_witness :
    (({ id := "a", query := "q", result := Json.obj [], time_seconds := 0,
        error := some "boom", success := false, results := 0 } : RunRecord).success
          = true
        ↔ ({ id := "a", query := "q", result := Json.obj [], time_seconds := 0,
             error := some "boom", success := false, results := 0 } : RunRecord).error
          = none)
      ∧ (({ id := "a", query := "q", result := Json.obj [], time_seconds := 0,
            error := some "boom", success := false, results := 0 } : RunRecord).error
            ≠ none
          → ({ id := "a", query := "q", result := Json.obj [], time_seconds := 0,
               error := some "boom", success := false, results := 0 } : RunRecord).results
            = 0) :=
  c2_metadata_invariant (fun _ => Except.error "boom") (fun _ => 0) 0 [("a", "q")]
    [{ id := "a", query := "q", result := Json.obj [], time_seconds := 0,
       error := some "boom", success := false, results := 0 }] rfl
    { id := "a", query := "q", result := Json.obj [], time_seconds := 0,
      error := some "boom", success := false, results := 0 } (by simp)

/-- C3 counterexample: the metadata computation of save_query_data is not
defined for every payload — on a payload whose "results" member has no
"bindings" member underneath, it raises (modelled as none), refuting the
claim that the computation never fails. -/
theorem c3_counterexample :
    save_query_data "a" "q" (Json.obj [("results", Json.obj [])]) none 0 = none := rfl

/-- C3 amended: on mapping payloads, the results field is the count of the
bindings sequence when the payload exposes a results mapping holding a
bindings sequence, and 0 when the payload has no "results" member; but when
a "results" member is present whose value has no "bindings" member, the
computation fails instead of returning a count. -/
theorem c3_results_count (kvs : List (String × Json)) :
    (∀ ro bs, pyIndex (Json.obj kvs) "results" = some (Json.obj ro) →
        pyIndex (Json.obj ro) "bindings" = some (Json.arr bs) →
        countResults (Json.obj kvs) = some bs.length)
      ∧ (pyIndex (Json.obj kvs) "results" = none →
          countResults (Json.obj kvs) = some 0)
      ∧ (∀ v, pyIndex (Json.obj kvs) "results" = some v →
          pyIndex v "bindings" = none →
          countResults (Json.obj kvs) = none) := by
  refine ⟨?_, ?_, ?_⟩
  · intro ro bs h1 h2
    simp [countResults, obj_contains_index, h1, h2, pyLen]
  · intro h
    simp [countResults, obj_contains_index, h]
  · intro v h1 h2
    simp [countResults, obj_contains_index, h1, h2]

/-- Witness for C3 at a payload with one binding. -/
theorem c3_witness :
    countResults
        (Json.obj [("results", Json.obj [("bindings", Json.arr [Json.null])])])
      = some 1 :=
  (c3_results_count _).1 _ [Json.null] rfl rfl

/-- C4: persisting a Run Record writes three files, but the query artifact is
named with a double dot — the id, a literal dot from the format string, and
the extension constant ".rq" which already contains its own dot. The namefix
repair script maps the written name to the single-dot name the claim states,
which the direct write never produces. -/
theorem c4_artifact_names_double_dot :
    save_artifact_names "interactive-short-4-1"
        = ["interactive-short-4-1..rq", "interactive-short-4-1.json",
           "interactive-short-4-1-meta.json"]
      ∧ query_artifact_name "interactive-short-4-1" ≠ "interactive-short-4-1.rq"
      ∧ namefix_name (query_artifact_name "interactive-short-4-1")
          = "interactive-short-4-1.rq" := by
  refine ⟨by decide, by decide, by decide⟩

/-- C5 counterexample: on a metadata filename whose id does not have four
dash-separated components, the sort-key function fails (the four-way
unpacking raises), instead of falling back to the raw filename. -/
theorem c5_counterexample : generate_key "a-b-meta.json" = none := by decide

/-- C5 amended: the raw-filename fallback applies exactly to the filenames
that do not end with the metadata suffix; a metadata filename whose id does
not split into four dash-separated components makes the sort-key function
fail instead. -/
theorem c5_non_meta_fallback (name : String)
    (h : pyEndsWith name META_SUFFIX = false) :
    generate_key name = some name := by
  simp [generate_key, h]

/-- Witness for C5 at a filename without the metadata suffix. -/
theorem c5_witness : generate_key "notes.txt" = some "notes.txt" :=
  c5_non_meta_fallback "notes.txt" (by decide)

/-- C6: the units loaded from a template file are in bijection with the
fragments that are non-empty after stripping — their number equals the count
of such fragments (so a trailing separator, whose extra fragment strips to
empty, adds no unit), and every unit text is stripped and non-empty. -/
theorem c6_load_fragments (content : String) :
    (load_template content).length
        = (pySplit content SOLIDBENCH_QUERY_SEP).countP keep_fragment
      ∧ ∀ u ∈ load_template content, pyStrip u = u ∧ u ≠ "" := by
  refine ⟨?_, ?_⟩
  · simp [load_template, List.countP_eq_length_filter]
  · intro u hu
    simp only [load_template, List.mem_map, List.mem_filter] at hu
    obtain ⟨q, ⟨hq, hkeep⟩, rfl⟩ := hu
    refine ⟨pyStrip_idem q, ?_⟩
    have hlen : 0 < (pyStrip q).length := by
      simpa [keep_fragment] using hkeep
    intro hempty
    rw [hempty] at hlen
    simp at hlen

/-- Witness for C6 at a two-fragment template file. -/
theorem c6_witness : pyStrip "a" = "a" ∧ "a" ≠ "" :=
  (c6_load_fragments "a\n\nb").2 "a" (by decide)

/-- C7: within one template file, the id of the unit at position i is the
template id, a dash, and the numeral i + 1 — sequence numbers start at 1
and increment by 1 in fragment order. -/
theorem c7_unit_ids (tid content : String) (i : Nat)
    (h : i < (load_file_units tid content).length) :
    ((load_file_units tid content).get ⟨i, h⟩).1
      = tid ++ "-" ++ toString (i + 1) := by
  simp only [load_file_units, List.get_eq_getElem, List.getElem_map,
    List.getElem_zip, List.getElem_range]

/-- Witness for C7 at the second unit of a two-fragment template file. -/
theorem c7_witness :
    ((load_file_units "t" "a\n\nb").get ⟨1, by decide⟩).1
      = "t" ++ "-" ++ toString (1 + 1) :=
  c7_unit_ids "t" "a\n\nb" 1 (by decide)

/-- C8: when the transport succeeds but the stripped response body does not
parse, the executor fails with exactly the stripped response text as the
failure message. -/
theorem c8_parse_failure_message
    (transport : String → String → Except String String)
    (parse : String → Option Json) (endpoint query body : String)
    (ht : transport endpoint query = Except.ok body)
    (hp : parse (pyStrip body) = none) :
    execute_query transport parse endpoint query
      = Except.error (pyStrip body) := by
  simp [execute_query, ht, hp]

/-- Witness for C8 at a concrete unparseable response body. -/
theorem c8_witness :
    execute_query (fun _ _ => Except.ok " oops ") (fun _ => none) "ep" "q"
      = Except.error (pyStrip " oops ") :=
  c8_parse_failure_message _ _ "ep" "q" " oops " rfl rfl

/-- C9: with metadata artifacts for the ids A-type-2-1, A-type-10-1 and
A-type-1-1, the summary rows come out in the order A-type-1-1, A-type-2-1,
A-type-10-1 — the single-zero padding of the third component makes the
lexical key order agree with the numeric order of these one- and two-digit
sequence numbers. -/
theorem c9_summary_row_order :
    generate_summary_order
        ["A-type-2-1-meta.json", "A-type-10-1-meta.json", "A-type-1-1-meta.json"]
      = some ["A-type-1-1", "A-type-2-1", "A-type-10-1"] := by decide

/-- C10: the executor fails exactly when the transport fails or the stripped
body does not parse; whenever the body parses to any JSON value — a mapping
or not — that value is returned unchanged as the success. -/
theorem c10_executor_failure_characterization
    (transport : String → String → Except String String)
    (parse : String → Option Json) (endpoint query : String) :
    ((∃ e, execute_query transport parse endpoint query = Except.error e)
        ↔ (∃ e, transport endpoint query = Except.error e)
          ∨ (∃ body, transport endpoint query = Except.ok body
              ∧ parse (pyStrip body) = none))
      ∧ ∀ body j, transport endpoint query = Except.ok body →
          parse (pyStrip body) = some j →
          execute_query transport parse endpoint query = Except.ok j := by
  constructor
  · cases ht : transport endpoint query with
    | error e => simp [execute_query, ht]
    | ok body =>
      cases hp : parse (pyStrip body) with
      | none => simp [execute_query, ht, hp]
      | some j => simp [execute_query, ht, hp]
  · intro body j ht hp
    simp [execute_query, ht, hp]

/-- Witness for C10: a response parsing to a non-mapping JSON value (an
empty array) is returned unchanged as a success. -/
theorem c10_witness :
    execute_query (fun _ _ => Except.ok "[]") (fun _ => some (Json.arr []))
        "ep" "q"
      = Except.ok (Json.arr []) :=
  (c10_executor_failure_characterization _ _ "ep" "q").2 "[]" (Json.arr []) rfl rfl

end SolidbenchJena
